import Mathlib

/-!
# GridBridge UK — Geospatial Overlay Engine: verification development

A shallow embedding of the overlay engine of the GridBridge UK repository
(React/JS UI components) into Lean 4, together with theorems settling the
frozen claims about it.

Conventions of the embedding:
* JS numbers are modelled as `ℚ` (all arithmetic the claims touch is exact).
* A possibly-absent JS field is `Option _`; the JS "or default" idiom
  `x || d` on numbers (which substitutes `d` for `undefined` *and* for `0`,
  both falsy) is `jsNumOr`.
* Optional chaining `a?.b?.c || []` is `Option.bind` followed by `getD []`.
* Components that conditionally `return null` become functions into
  `Option _` (`none` = nothing rendered for that entity).
-/

namespace GridBridge

/-- JS `v || d` for an optional numeric field: `undefined` and `0` are both
falsy, so either yields the default `d`. -/
def jsNumOr (v : Option ℚ) (d : ℚ) : ℚ :=
  match v with
  | none => d
  | some x => if x = 0 then d else x

/-- JS `x || d` for a numeric value that is known to be present:
`0` is falsy and yields the default. -/
def jsFalsyOr (x d : ℚ) : ℚ :=
  if x = 0 then d else x

/-- A geographic position `{lat, lng}` as supplied by the feeds. -/
structure Coords where
  lat : ℚ
  lng : ℚ
  deriving DecidableEq

/-- A generation unit record (feed layer `generators`). -/
structure Generator where
  id : String
  name : String
  fuel_type : Option String
  coords : Option Coords
  capacity_mw : Option ℚ
  output_mw : Option ℚ
  deriving DecidableEq

/-- A transmission node record (feed layer `grid_nodes`). -/
structure GridNode where
  id : String
  name : String
  coords : Option Coords
  voltage_kv : ℚ
  headroom_mw : ℚ
  load_mw : ℚ
  deriving DecidableEq

/-- A cross-border interconnector record (feed layer `interconnectors`). -/
structure Interconnector where
  id : String
  name : String
  country_code : Option String
  coords : Option Coords
  flow_mw : Option ℚ
  capacity_mw : Option ℚ
  deriving DecidableEq

/-- A carbon-intensity region record (feed layer `carbon_intensity`). -/
structure CarbonRegion where
  id : String
  name : String
  coords : Option Coords
  intensity : ℚ
  index : Option String
  deriving DecidableEq

/-- One layer of the overlay-state document: `{ data: [...] }`.
The `data` field itself may be absent in a malformed document. -/
structure LayerDoc (α : Type) where
  data : Option (List α)
  deriving DecidableEq

/-- The `layers` object of the overlay-state document, keyed by layer kind. -/
structure OverlayLayers where
  generators : Option (LayerDoc Generator)
  interconnectors : Option (LayerDoc Interconnector)
  grid_nodes : Option (LayerDoc GridNode)
  carbon_intensity : Option (LayerDoc CarbonRegion)
  deriving DecidableEq

/-- The overlay-state document fetched from `/api/overlay/state`. -/
structure Overlay where
  layers : Option OverlayLayers
  deriving DecidableEq

/-- Optional chain `overlay?.layers?.<kind>?.data || []` shared by all the
layer-extraction `useMemo`s. -/
def overlayLayerData {α : Type} (o : Option Overlay)
    (sel : OverlayLayers → Option (LayerDoc α)) : List α :=
  (((o.bind Overlay.layers).bind sel).bind LayerDoc.data).getD []

/-! ## Coordinate projection (schematic strategy) -/

/-- Fixed geographic bounding box of the territory
(`UK_BOUNDS`, GridSimulator.jsx line 22). -/
structure Bounds where
  north : ℚ
  south : ℚ
  east : ℚ
  west : ℚ

def UK_BOUNDS : Bounds := { north := 60, south := 49.5, east := 2, west := -8 }

def MAP_WIDTH : ℚ := 400

def MAP_HEIGHT : ℚ := 500

/-- Affine projection of the schematic SVG surface
(`latLngToXY`, GridSimulator.jsx lines 51-55). -/
def latLngToXY (lat lng : ℚ) : ℚ × ℚ :=
  (((lng - UK_BOUNDS.west) / (UK_BOUNDS.east - UK_BOUNDS.west)) * MAP_WIDTH,
   ((UK_BOUNDS.north - lat) / (UK_BOUNDS.north - UK_BOUNDS.south)) * MAP_HEIGHT)

/-- Simplified projection of `UKMapSVG` (`toSVG`, GridMapOverlay.jsx
lines 106-111). -/
def toSVG (lat lng : ℚ) : ℚ × ℚ :=
  (((lng + 8) / 10) * 200 + 50, ((60 - lat) / 10.5) * 380 + 20)

/-! ## Layer extraction and static defaults (GridSimulatorMap, unnamed part_003) -/

/-- `DEFAULT_GENERATORS` (part_003 lines 580-589): the static default
generator set of `GridSimulatorMap`. -/
def DEFAULT_GENERATORS : List Generator :=
  [ { id := "drax", name := "Drax Power Station", fuel_type := some "biomass",
      coords := some ⟨53.74, -0.99⟩, capacity_mw := some 2595, output_mw := some 1800 },
    { id := "sizewell", name := "Sizewell B", fuel_type := some "nuclear",
      coords := some ⟨52.21, 1.62⟩, capacity_mw := some 1198, output_mw := some 1150 },
    { id := "hinkley", name := "Hinkley Point B", fuel_type := some "nuclear",
      coords := some ⟨51.21, -3.13⟩, capacity_mw := some 965, output_mw := some 920 },
    { id := "hornsea", name := "Hornsea Wind Farm", fuel_type := some "wind",
      coords := some ⟨53.88, 1.80⟩, capacity_mw := some 1218, output_mw := some 850 },
    { id := "dogger", name := "Dogger Bank Wind", fuel_type := some "wind",
      coords := some ⟨54.75, 2.20⟩, capacity_mw := some 1200, output_mw := some 780 },
    { id := "dinorwig", name := "Dinorwig Hydro", fuel_type := some "hydro",
      coords := some ⟨53.12, -4.11⟩, capacity_mw := some 1728, output_mw := some 0 },
    { id := "ccgt_pembroke", name := "Pembroke CCGT", fuel_type := some "gas",
      coords := some ⟨51.68, -4.99⟩, capacity_mw := some 2180, output_mw := some 1450 },
    { id := "ccgt_carrington", name := "Carrington CCGT", fuel_type := some "gas",
      coords := some ⟨53.43, -2.41⟩, capacity_mw := some 884, output_mw := some 620 } ]

/-- `DEFAULT_GSPS` (part_003 lines 552-578): the static default grid-node set
of `GridSimulatorMap`, documented in the source as "Default UK GSPs for when
API is unavailable". -/
def DEFAULT_GSPS : List GridNode :=
  [ { id := "didcot", name := "Didcot 400kV", coords := some ⟨51.62, -1.27⟩,
      voltage_kv := 400, headroom_mw := 120, load_mw := 850 },
    { id := "london", name := "London GSP", coords := some ⟨51.51, -0.13⟩,
      voltage_kv := 400, headroom_mw := 45, load_mw := 2100 },
    { id := "manchester", name := "Manchester GSP", coords := some ⟨53.48, -2.24⟩,
      voltage_kv := 400, headroom_mw := 85, load_mw := 1200 },
    { id := "birmingham", name := "Birmingham GSP", coords := some ⟨52.49, -1.90⟩,
      voltage_kv := 400, headroom_mw := 72, load_mw := 980 },
    { id := "edinburgh", name := "Edinburgh GSP", coords := some ⟨55.95, -3.19⟩,
      voltage_kv := 275, headroom_mw := 95, load_mw := 650 },
    { id := "glasgow", name := "Glasgow GSP", coords := some ⟨55.86, -4.25⟩,
      voltage_kv := 400, headroom_mw := 110, load_mw := 720 },
    { id := "cardiff", name := "Cardiff GSP", coords := some ⟨51.48, -3.18⟩,
      voltage_kv := 275, headroom_mw := 88, load_mw := 420 },
    { id := "bristol", name := "Bristol GSP", coords := some ⟨51.45, -2.58⟩,
      voltage_kv := 275, headroom_mw := 65, load_mw := 580 },
    { id := "newcastle", name := "Newcastle GSP", coords := some ⟨54.98, -1.61⟩,
      voltage_kv := 275, headroom_mw := 92, load_mw := 490 },
    { id := "leeds", name := "Leeds GSP", coords := some ⟨53.80, -1.55⟩,
      voltage_kv := 275, headroom_mw := 78, load_mw := 620 },
    { id := "liverpool", name := "Liverpool GSP", coords := some ⟨53.41, -2.98⟩,
      voltage_kv := 275, headroom_mw := 82, load_mw := 540 },
    { id := "sheffield", name := "Sheffield GSP", coords := some ⟨53.38, -1.47⟩,
      voltage_kv := 275, headroom_mw := 68, load_mw := 480 },
    { id := "cambridge", name := "Cambridge GSP", coords := some ⟨52.21, 0.12⟩,
      voltage_kv := 132, headroom_mw := 105, load_mw := 320 },
    { id := "oxford", name := "Oxford GSP", coords := some ⟨51.75, -1.26⟩,
      voltage_kv := 132, headroom_mw := 98, load_mw := 280 },
    { id := "reading", name := "Reading GSP", coords := some ⟨51.45, -0.97⟩,
      voltage_kv := 275, headroom_mw := 55, load_mw := 410 },
    { id := "southampton", name := "Southampton GSP", coords := some ⟨50.91, -1.40⟩,
      voltage_kv := 275, headroom_mw := 73, load_mw := 380 },
    { id := "norwich", name := "Norwich GSP", coords := some ⟨52.63, 1.30⟩,
      voltage_kv := 132, headroom_mw := 115, load_mw := 260 },
    { id := "nottingham", name := "Nottingham GSP", coords := some ⟨52.95, -1.15⟩,
      voltage_kv := 275, headroom_mw := 62, load_mw := 450 },
    { id := "leicester", name := "Leicester GSP", coords := some ⟨52.64, -1.13⟩,
      voltage_kv := 275, headroom_mw := 58, load_mw := 390 },
    { id := "aberdeen", name := "Aberdeen GSP", coords := some ⟨57.15, -2.09⟩,
      voltage_kv := 275, headroom_mw := 125, load_mw := 280 },
    { id := "inverness", name := "Inverness GSP", coords := some ⟨57.48, -4.22⟩,
      voltage_kv := 132, headroom_mw := 140, load_mw := 180 },
    { id := "dundee", name := "Dundee GSP", coords := some ⟨56.46, -2.97⟩,
      voltage_kv := 132, headroom_mw := 95, load_mw := 220 },
    { id := "swansea", name := "Swansea GSP", coords := some ⟨51.62, -3.94⟩,
      voltage_kv := 275, headroom_mw := 85, load_mw := 290 },
    { id := "plymouth", name := "Plymouth GSP", coords := some ⟨50.38, -4.14⟩,
      voltage_kv := 132, headroom_mw := 92, load_mw := 240 },
    { id := "exeter", name := "Exeter GSP", coords := some ⟨50.72, -3.53⟩,
      voltage_kv := 132, headroom_mw := 102, load_mw := 210 } ]

/-- Generators extraction of `GridSimulatorMap` (part_003 lines 603-606):
`apiData = overlay?.layers?.generators?.data || []` and then
`apiData.length > 0 ? apiData : DEFAULT_GENERATORS`. -/
def gsmGenerators (o : Option Overlay) : List Generator :=
  let apiData := overlayLayerData o OverlayLayers.generators
  if apiData.length > 0 then apiData else DEFAULT_GENERATORS

/-- Grid-nodes extraction of `GridSimulatorMap` (part_003 lines 610-613),
falling back to `DEFAULT_GSPS` whenever the extracted list is empty. -/
def gsmGridNodes (o : Option Overlay) : List GridNode :=
  let apiData := overlayLayerData o OverlayLayers.grid_nodes
  if apiData.length > 0 then apiData else DEFAULT_GSPS

/-- Interconnectors extraction of `GridSimulatorMap` (part_003 line 608):
no default set. -/
def gsmInterconnectors (o : Option Overlay) : List Interconnector :=
  overlayLayerData o OverlayLayers.interconnectors

/-- Carbon-regions extraction of `GridSimulatorMap` (part_003 line 615):
no default set. -/
def gsmCarbonRegions (o : Option Overlay) : List CarbonRegion :=
  overlayLayerData o OverlayLayers.carbon_intensity

/-- Generators extraction of `GridSimulator` (GridSimulator.jsx lines 699-700):
`overlay?.layers?.generators?.data || []`, no default set. -/
def simGenerators (o : Option Overlay) : List Generator :=
  overlayLayerData o OverlayLayers.generators

/-! ## Poller cycle models (C2) -/

/-- The `/api/aggregated/flexibility-opportunities` document
`{ opportunities: [...] }`; the list may be absent in a malformed document. -/
structure OppsDoc (P : Type) where
  opportunities : Option (List P)

/-- The state held by the `useGridData` hook (GridSimulator.jsx lines 72-79,
identically part_003 lines 75-82), generic over the three document types. -/
structure UseGridDataState (S O P : Type) where
  snapshot : Option S
  overlay : Option O
  opportunities : List P
  loading : Bool
  error : Option String
  hasUpdate : Bool

/-- One `fetchData` cycle of the `useGridData` hook (GridSimulator.jsx lines
81-100). Each document's fetch outcome is `Except.error msg` when the fetch
or JSON parse rejects, `Except.ok none` when the response was non-2xx
(`r.ok ? r.json() : null`), and `Except.ok (some doc)` on success.
`Promise.all` rejects when any fetch rejects, landing in the `catch` branch
which spreads the previous state; otherwise `setData` replaces the whole
state with this cycle's results. -/
def useGridDataCycle {S O P : Type} (prev : UseGridDataState S O P)
    (s : Except String (Option S)) (o : Except String (Option O))
    (p : Except String (Option (OppsDoc P))) : UseGridDataState S O P :=
  match s, o, p with
  | .ok sv, .ok ov, .ok pv =>
      { snapshot := sv
        overlay := ov
        opportunities := (pv.bind OppsDoc.opportunities).getD []
        loading := false
        error := none
        hasUpdate := true }
  | .error e, _, _ => { prev with loading := false, error := some e }
  | _, .error e, _ => { prev with loading := false, error := some e }
  | _, _, .error e => { prev with loading := false, error := some e }

/-- The state held by the `GridMapOverlay` component (GridMapOverlay.jsx
lines 244-248), generic over the three document types. -/
structure OverlayViewState (S O P : Type) where
  overlayState : Option O
  snapshot : Option S
  opportunities : List P
  loading : Bool
  error : Option String

/-- One `refreshData` cycle of `GridMapOverlay` (GridMapOverlay.jsx lines
259-278). The fetch helpers catch internally and return `null` on any
failure, so each argument is `none` (that document failed) or `some doc`;
the cycle applies each document only when truthy (`if (overlay)
setOverlayState(overlay)` etc.), clears the error, and ends loading. -/
def refreshDataCycle {S O P : Type} (prev : OverlayViewState S O P)
    (o : Option O) (s : Option S) (p : Option (OppsDoc P)) :
    OverlayViewState S O P :=
  { overlayState := match o with | some v => some v | none => prev.overlayState
    snapshot := match s with | some v => some v | none => prev.snapshot
    opportunities :=
      match p with
      | some doc => doc.opportunities.getD []
      | none => prev.opportunities
    loading := false
    error := none }

/-! ## Selection controller / detail panel (C3) -/

/-- The fields the selection panels probe on the currently selected entity
(`SelectionDetailPanel`, GridSimulator.jsx lines 573-578; `SelectionPanel`,
part_003 lines 410-415). -/
structure Selection where
  name : String
  fuel_type : Option String
  node_type : Option String
  country_code : Option String
  deriving DecidableEq

/-- `isGenerator`: `selection.fuel_type !== undefined`. -/
def Selection.isGenerator (sel : Selection) : Bool :=
  sel.fuel_type.isSome

/-- `isNode`: `selection.node_type !== undefined`. -/
def Selection.isNode (sel : Selection) : Bool :=
  sel.node_type.isSome

/-- `isInterconnector`: `selection.country_code !== undefined`. -/
def Selection.isInterconnector (sel : Selection) : Bool :=
  sel.country_code.isSome

/-- How many entity kinds the selected entity structurally matches. -/
def Selection.matchedKindCount (sel : Selection) : Nat :=
  (if sel.isGenerator then 1 else 0) + (if sel.isNode then 1 else 0) +
    (if sel.isInterconnector then 1 else 0)

/-- The kinds of detail section the panels can emit. `violationNotice` is the
section a data-contract-violation report would occupy; it is part of the
vocabulary so that its absence can be stated, and the embedding below shows
the source never emits it. -/
inductive PanelSection where
  | generator
  | node
  | interconnector
  | violationNotice
  deriving DecidableEq

/-- The sections rendered by the selection panels, in source order: one block
per structurally matched kind (`{isGenerator && ...}`, `{isNode && ...}`,
`{isInterconnector && ...}`), and nothing else — both panels branch only on
the three membership booleans. -/
def selectionPanelSections (sel : Selection) : List PanelSection :=
  (if sel.isGenerator then [PanelSection.generator] else []) ++
    (if sel.isNode then [PanelSection.node] else []) ++
      (if sel.isInterconnector then [PanelSection.interconnector] else [])

/-! ## Renderer placement of generators (C4) -/

/-- Marker position computed by `AnimatedGeneratorIcon` (GridSimulator.jsx
line 133): `latLngToXY(generator.coords?.lat || 54, generator.coords?.lng
|| -2)` — absent (or zero) coordinates are replaced by the default point. -/
def animatedGeneratorPos (g : Generator) : ℚ × ℚ :=
  latLngToXY (jsNumOr (g.coords.map Coords.lat) 54)
    (jsNumOr (g.coords.map Coords.lng) (-2))

/-- The rendered marker of `AnimatedGeneratorIcon`: the component has no
exclusion path (it never returns `null`), so every generator yields a marker
at `animatedGeneratorPos`. -/
def animatedGeneratorMarker (g : Generator) : Option (ℚ × ℚ) :=
  some (animatedGeneratorPos g)

/-- The rendered generator marker of `UKMapSVG` (GridMapOverlay.jsx lines
151-153): `if (!gen.coords || gen.coords.lat === 0) return null`, otherwise
a circle at `toSVG(gen.coords.lat, gen.coords.lng)`. -/
def ukSvgGeneratorMarker (g : Generator) : Option (ℚ × ℚ) :=
  match g.coords with
  | none => none
  | some c => if c.lat = 0 then none else some (toSVG c.lat c.lng)

/-- The rendered marker of `GeneratorMarker` (part_003 lines 119-147):
`if (!generator.coords?.lat || !generator.coords?.lng) return null` (absent
coords, or zero latitude or longitude, are falsy), otherwise a circle marker
at the raw coordinates (the map library owns projection). -/
def gsmGeneratorMarker (g : Generator) : Option (ℚ × ℚ) :=
  match g.coords with
  | none => none
  | some c => if c.lat = 0 ∨ c.lng = 0 then none else some (c.lat, c.lng)

/-! ## Headroom color bands (C5) -/

/-- `getHeadroomColor` (part_001 lines 79-83): green above 100 MW, amber
above 50 MW, red otherwise. -/
def getHeadroomColor (headroom : ℚ) : String :=
  if headroom > 100 then "#22c55e"
  else if headroom > 50 then "#f59e0b"
  else "#ef4444"

/-- `headroomColor` (part_002 lines 65-69): the same bands; the inline
conditionals in `GridNodeMarker` (GridSimulator.jsx lines 262-264, part_003
lines 152-154) and `UKMapSVG` (GridMapOverlay.jsx line 141) repeat it. -/
def headroomColor (h : ℚ) : String :=
  if h > 100 then "#22c55e"
  else if h > 50 then "#f59e0b"
  else "#ef4444"

/-! ## Interconnector classification, color and width (C6) -/

/-- The defaulted flow read by `InterconnectorLine` (part_003 line 184):
`const flow = interconnector.flow_mw || 0`. -/
def interFlowOf (ic : Interconnector) : ℚ :=
  jsNumOr ic.flow_mw 0

/-- `isImport` (part_003 line 185): `flow > 0`. -/
def interIsImport (flow : ℚ) : Bool :=
  flow > 0

/-- Line color (part_003 line 186, same expression in GridMapOverlay.jsx
line 168 and GridSimulator.jsx line 187): green for positive flow, red for
negative flow, neutral gray otherwise. -/
def interColor (flow : ℚ) : String :=
  if flow > 0 then "#22c55e" else if flow < 0 then "#ef4444" else "#6b7280"

/-- Tooltip classification of `InterconnectorLine` (part_003 line 208):
`isImport ? 'Import' : 'Export'`. -/
def interLabel (flow : ℚ) : String :=
  if interIsImport flow then "Import" else "Export"

/-- Line weight of `InterconnectorLine` (part_003 line 199):
`Math.max(2, Math.abs(flow) / 300)`. -/
def interWeight (flow : ℚ) : ℚ :=
  max 2 (|flow| / 300)

/-- Tooltip classification of `UKMapSVG` interconnectors (GridMapOverlay.jsx
line 173): `ic.flow_mw > 0 ? 'import' : 'export'`. -/
def ukSvgInterLabel (flow : ℚ) : String :=
  if flow > 0 then "import" else "export"

/-- Stroke width of `UKMapSVG` interconnector lines (GridMapOverlay.jsx
line 171): the constant `3`. -/
def ukSvgInterStrokeWidth : ℚ := 3

/-! ## Capacity factor display (C7) -/

/-- The displayed capacity factor of `SelectionDetailPanel`
(GridSimulator.jsx line 605):
`(selection.output_mw / (selection.capacity_mw || 1)) * 100`. -/
def capacityFactorPct (output capacity : ℚ) : ℚ :=
  output / jsFalsyOr capacity 1 * 100

/-- The displayed capacity factor of `SelectionPanel` (part_003 line 442):
`((selection.output_mw || 0) / (selection.capacity_mw || 1)) * 100`, with
possibly-absent fields. -/
def gsmCapacityFactorPct (output capacity : Option ℚ) : ℚ :=
  jsNumOr output 0 / jsNumOr capacity 1 * 100

/-! ## Collection truncation before rendering (C8) -/

/-- Generators actually handed to the `UKMapSVG` marker loop
(GridMapOverlay.jsx line 151): `generators?.slice(0, 50)`. -/
def ukSvgVisibleGenerators (gens : List Generator) : List Generator :=
  gens.take 50

/-- Generators actually handed to the `GridSimulator` marker loop
(GridSimulator.jsx line 860): `generators.slice(0, 100)`. -/
def simVisibleGenerators (gens : List Generator) : List Generator :=
  gens.take 100

/-- Generators actually handed to the `GridSimulatorMap` marker loop
(part_003 line 711): `generators.slice(0, 200)`. -/
def gsmVisibleGenerators (gens : List Generator) : List Generator :=
  gens.take 200

/-- Grid nodes handed to the `UKMapSVG` marker loop (GridMapOverlay.jsx
line 138): `gridNodes?.map(...)` — the whole collection, no slice. The
interconnector and carbon loops are likewise unsliced. -/
def ukSvgVisibleGridNodes (nodes : List GridNode) : List GridNode :=
  nodes

/-! ## Generator marker size (C9) -/

/-- The size-relevant numeric fields of a generator record. -/
structure GenVitals where
  capacity_mw : ℚ
  output_mw : ℚ
  deriving DecidableEq

/-- Generator marker size in `UKMapSVG` (GridMapOverlay.jsx line 155):
`Math.min(Math.max(gen.output_mw / 100, 3), 12)` — computed from the
generator's *output*. -/
def ukSvgSizeOf (g : GenVitals) : ℚ :=
  min (max (g.output_mw / 100) 3) 12

/-- The clamp applied by `GeneratorMarker` (part_003 line 122) to its radius:
`Math.max(5, Math.min(20, s))` where `s = Math.sqrt(capacity_mw || 50) / 2`
is the square-root term (kept symbolic here since `Math.sqrt` is
irrational-valued). -/
def gsmRadiusClamp (s : ℚ) : ℚ :=
  max 5 (min 20 s)

/-- The radius of the part_002 generator markers (part_002 line 140):
`Math.max(6, Math.sqrt(gen.cap) / 5)` with `s = Math.sqrt(gen.cap)` kept
symbolic — a lower clip only, no maximum. -/
def part002Radius (s : ℚ) : ℚ :=
  max 6 (s / 5)

/-! ## Generator marker opacity floor (C10) -/

/-- The opacity of `AnimatedGeneratorIcon` (GridSimulator.jsx line 136):
`Math.max(0.3, (generator.output_mw || 0) / (generator.capacity_mw || 100))`. -/
def animatedIconCapFactor (output capacity : Option ℚ) : ℚ :=
  max (3/10) (jsNumOr output 0 / jsNumOr capacity 100)

/-- The `fillOpacity` of `GeneratorMarker` (part_003 lines 121 and 133):
`capFactor = (generator.output_mw || 0) / (generator.capacity_mw || 100)`
and `fillOpacity: Math.max(0.3, capFactor)`. -/
def gsmFillOpacity (output capacity : Option ℚ) : ℚ :=
  max (3/10) (jsNumOr output 0 / jsNumOr capacity 100)

/-! ## Concrete inputs used by the counterexamples -/

/-- An overlay-state document in which every layer feed is present and
returns a valid empty collection (`{ data: [] }`). -/
def emptyFeedOverlay : Overlay :=
  { layers := some
      { generators := some { data := some [] }
        interconnectors := some { data := some [] }
        grid_nodes := some { data := some [] }
        carbon_intensity := some { data := some [] } } }

/-- A previous `useGridData` state holding data for all three documents
(documents instantiated at `ℕ` markers). -/
def c2PrevState : UseGridDataState ℕ ℕ ℕ :=
  { snapshot := some 7, overlay := some 3, opportunities := [1],
    loading := false, error := none, hasUpdate := true }

/-- A selected entity carrying both a fuel kind and a country code —
structurally a Generator and an InterconnectorLink at once. -/
def dualKindSelection : Selection :=
  { name := "IFA converter + CCGT", fuel_type := some "gas",
    node_type := none, country_code := some "FR" }

/-- A generator whose geographic position is absent from the feed record. -/
def noCoordsGenerator : Generator :=
  { id := "ghost", name := "Ghost Plant", fuel_type := some "wind",
    coords := none, capacity_mw := some 100, output_mw := some 50 }

/-- A valid, placeable generator used to build oversized collections. -/
def placedGenerator : Generator :=
  { id := "drax", name := "Drax Power Station", fuel_type := some "biomass",
    coords := some ⟨53.74, -0.99⟩, capacity_mw := some 2595,
    output_mw := some 1800 }

/-- A small generator currently producing at full capacity. -/
def smallBusyGen : GenVitals := { capacity_mw := 400, output_mw := 400 }

/-- A large generator currently idle. -/
def bigIdleGen : GenVitals := { capacity_mw := 5000, output_mw := 0 }

/-! ## Theorems settling the claims -/

/-- C1: when the overlay feed is present and returns a valid empty collection
(`data: []`) for the generators and grid-nodes layers, `GridSimulatorMap`
nevertheless substitutes the configured static default sets (contrary to the
spec's missing-vs-empty distinction and to the source comment that the
defaults are "for when API is unavailable"); the `GridSimulator` extraction
of the same feed keeps the collection empty. -/
theorem c1_empty_feed_substitutes_defaults :
    gsmGenerators (some emptyFeedOverlay) = DEFAULT_GENERATORS ∧
    DEFAULT_GENERATORS ≠ [] ∧
    gsmGridNodes (some emptyFeedOverlay) = DEFAULT_GSPS ∧
    DEFAULT_GSPS ≠ [] ∧
    simGenerators (some emptyFeedOverlay) = [] := by
  refine ⟨rfl, ?_, rfl, ?_, rfl⟩ <;> simp [DEFAULT_GENERATORS, DEFAULT_GSPS]

/-- C2 counterexample: in a `useGridData` cycle where the snapshot fetch
returns non-2xx while the overlay and opportunities fetches succeed, the
previously stored snapshot (`some 7`) is replaced by `none` — the failed
document's data is erased, refuting the claim that it remains exactly as
before the cycle. -/
theorem c2_failed_snapshot_clobbered :
    (useGridDataCycle c2PrevState (Except.ok none) (Except.ok (some 4))
        (Except.ok (some { opportunities := some [2] }))).snapshot = none ∧
    c2PrevState.snapshot = some 7 ∧
    (useGridDataCycle c2PrevState (Except.ok none) (Except.ok (some 4))
        (Except.ok (some { opportunities := some [2] }))).overlay = some 4 :=
  ⟨rfl, rfl, rfl⟩

/-- C2 amended: `GridMapOverlay`'s `refreshData` preserves each document when
its fetch fails and applies each success independently; the `useGridData`
hook instead replaces all three documents wholesale when no fetch rejects —
a document whose fetch returned non-OK is stored as `null` — and preserves
all previous documents only when some fetch rejects (the `catch` branch). -/
theorem c2_per_document_update_semantics :
    ∀ (S O P : Type) (rPrev : OverlayViewState S O P) (oD : Option O)
      (sD : Option S) (pD : Option (OppsDoc P)) (o1 : O) (s1 : S)
      (ops : List P) (uPrev : UseGridDataState S O P) (sv : Option S)
      (ov : Option O) (pv : Option (OppsDoc P)) (msg : String),
      (refreshDataCycle rPrev none sD pD).overlayState = rPrev.overlayState ∧
      (refreshDataCycle rPrev (some o1) sD pD).overlayState = some o1 ∧
      (refreshDataCycle rPrev oD none pD).snapshot = rPrev.snapshot ∧
      (refreshDataCycle rPrev oD (some s1) pD).snapshot = some s1 ∧
      (refreshDataCycle rPrev oD sD none).opportunities = rPrev.opportunities ∧
      (refreshDataCycle rPrev oD sD
          (some { opportunities := some ops })).opportunities = ops ∧
      (useGridDataCycle uPrev (Except.ok sv) (Except.ok ov)
          (Except.ok pv)).snapshot = sv ∧
      (useGridDataCycle uPrev (Except.ok sv) (Except.ok ov)
          (Except.ok pv)).overlay = ov ∧
      (useGridDataCycle uPrev (Except.error msg) (Except.ok ov)
          (Except.ok pv)).snapshot = uPrev.snapshot ∧
      (useGridDataCycle uPrev (Except.error msg) (Except.ok ov)
          (Except.ok pv)).overlay = uPrev.overlay := by
  intro S O P rPrev oD sD pD o1 s1 ops uPrev sv ov pv msg
  exact ⟨rfl, rfl, rfl, rfl, rfl, rfl, rfl, rfl, rfl, rfl⟩

/-- C3 counterexample: a selected entity carrying both a fuel kind and a
country code structurally matches two kinds, yet the selection panel renders
the generator and interconnector detail sections side by side and emits no
data-contract-violation notice — the violation is not reported. -/
theorem c3_dual_kind_selection_not_reported :
    2 ≤ dualKindSelection.matchedKindCount ∧
    selectionPanelSections dualKindSelection =
      [PanelSection.generator, PanelSection.interconnector] ∧
    PanelSection.violationNotice ∉ selectionPanelSections dualKindSelection := by
  refine ⟨by decide, rfl, by decide⟩

/-- C3 amended: the selection panels render one detail section per
structurally matched kind — a section appears exactly when its
characteristic attribute is present, so a multi-kind entity gets all its
matching sections — and no violation notice is ever rendered. -/
theorem c3_sections_follow_attribute_shape :
    ∀ sel : Selection,
      PanelSection.violationNotice ∉ selectionPanelSections sel ∧
      (PanelSection.generator ∈ selectionPanelSections sel ↔
        sel.isGenerator = true) ∧
      (PanelSection.node ∈ selectionPanelSections sel ↔ sel.isNode = true) ∧
      (PanelSection.interconnector ∈ selectionPanelSections sel ↔
        sel.isInterconnector = true) := by
  intro sel
  rcases sel with ⟨n, ft, nt, cc⟩
  rcases ft with _ | ft <;> rcases nt with _ | nt <;> rcases cc with _ | cc <;>
    simp [selectionPanelSections, Selection.isGenerator, Selection.isNode,
      Selection.isInterconnector]

/-- C4 counterexample: a generator whose feed record has no geographic
position is not excluded by `AnimatedGeneratorIcon`; it is rendered at the
substitute point `latLngToXY(54, -2) = (240, 2000/7)` on the schematic
surface. -/
theorem c4_absent_coords_plotted_at_default :
    animatedGeneratorMarker noCoordsGenerator = some (240, 2000/7) ∧
    latLngToXY 54 (-2) = (240, 2000/7) := by
  constructor <;>
    norm_num [animatedGeneratorMarker, animatedGeneratorPos, latLngToXY,
      jsNumOr, UK_BOUNDS, MAP_WIDTH, MAP_HEIGHT, noCoordsGenerator]

/-- C4 amended: the `UKMapSVG` renderer excludes a generator exactly when its
coordinates are absent or its latitude is zero; the `GeneratorMarker`
renderer excludes exactly when coordinates are absent or either coordinate
is zero; the schematic `AnimatedGeneratorIcon` never excludes — a generator
without coordinates is plotted at the default point `latLngToXY(54, -2)`. -/
theorem c4_unplaceable_exclusion_per_renderer :
    ∀ g : Generator,
      (ukSvgGeneratorMarker g = none ↔
        g.coords = none ∨ g.coords.map Coords.lat = some 0) ∧
      (gsmGeneratorMarker g = none ↔
        g.coords = none ∨ g.coords.map Coords.lat = some 0 ∨
          g.coords.map Coords.lng = some 0) ∧
      animatedGeneratorMarker { g with coords := none } =
        some (latLngToXY 54 (-2)) := by
  intro g
  refine ⟨?_, ?_, ?_⟩
  · rcases hc : g.coords with _ | c
    · simp [ukSvgGeneratorMarker, hc]
    · by_cases h : c.lat = 0 <;> simp [ukSvgGeneratorMarker, hc, h]
  · rcases hc : g.coords with _ | c
    · simp [gsmGeneratorMarker, hc]
    · by_cases h : c.lat = 0 ∨ c.lng = 0 <;>
        simp [gsmGeneratorMarker, hc, h]
  · simp [animatedGeneratorMarker, animatedGeneratorPos, jsNumOr]

/-- C5: the headroom color bands are exactly as claimed — strictly above
100 MW is the green band, strictly above 50 up to and including 100 MW is
the amber band, 50 MW and below is the red band; in particular 51 MW is
amber and 50 MW is red, and the part_002 `headroomColor` agrees with the
part_001 `getHeadroomColor`. -/
theorem c5_headroom_bands :
    ∀ h : ℚ,
      (100 < h → getHeadroomColor h = "#22c55e") ∧
      (50 < h → h ≤ 100 → getHeadroomColor h = "#f59e0b") ∧
      (h ≤ 50 → getHeadroomColor h = "#ef4444") ∧
      headroomColor h = getHeadroomColor h ∧
      getHeadroomColor 51 = "#f59e0b" ∧
      getHeadroomColor 50 = "#ef4444" := by
  intro h
  refine ⟨?_, ?_, ?_, rfl, by decide, by decide⟩
  · intro hh
    unfold getHeadroomColor
    rw [if_pos hh]
  · intro h1 h2
    unfold getHeadroomColor
    rw [if_neg (not_lt.mpr h2), if_pos h1]
  · intro h1
    unfold getHeadroomColor
    rw [if_neg (not_lt.mpr (h1.trans (by norm_num))), if_neg (not_lt.mpr h1)]

/-- C5 witness: the band theorem applied at headroom 101 MW. -/
theorem c5_headroom_bands_witness :
    (100:ℚ) < 101 ∧ getHeadroomColor 101 = "#22c55e" :=
  ⟨by norm_num, (c5_headroom_bands 101).1 (by norm_num)⟩

/-- C6 counterexample: the drawn line width is not proportional to the
absolute flow — `Math.max(2, |flow|/300)` sits at its floor 2 both at flow
−250 MW and at flow 0 MW, and no proportionality constant exists (a
proportional width would be 0 at flow 0, but the width there is 2). -/
theorem c6_line_width_not_proportional :
    interWeight (-250) = 2 ∧ interWeight 0 = 2 ∧
    ¬ ∃ c : ℚ, ∀ flow : ℚ, interWeight flow = c * |flow| := by
  refine ⟨?_, ?_, ?_⟩
  · rw [interWeight, abs_of_nonpos (by norm_num : (-250:ℚ) ≤ 0)]
    rw [max_eq_left (by norm_num : -(-250:ℚ) / 300 ≤ 2)]
  · rw [interWeight]
    simp only [abs_zero, zero_div]
    exact max_eq_left (by norm_num)
  · rintro ⟨c, hc⟩
    have h0 := hc 0
    rw [interWeight] at h0
    simp only [abs_zero, zero_div, mul_zero] at h0
    rw [max_eq_left (by norm_num : (0:ℚ) ≤ 2)] at h0
    exact absurd h0 (by norm_num)

/-- C6 amended: negative flow is classified export and colored red, positive
flow import and green; zero flow is colored the neutral idle gray (though
the tooltips label it Export); the `InterconnectorLine` width is
`max(2, |flow|/300)` — floored at 2 and non-decreasing in `|flow|`, so at
flow = −250 MW the width is the floor 2 — and the `UKMapSVG` stroke width is
the constant 3. -/
theorem c6_flow_classification_and_width :
    ∀ flow : ℚ,
      (flow < 0 → interColor flow = "#ef4444" ∧ interIsImport flow = false ∧
        interLabel flow = "Export") ∧
      (0 < flow → interColor flow = "#22c55e" ∧ interIsImport flow = true ∧
        interLabel flow = "Import") ∧
      interColor 0 = "#6b7280" ∧ interLabel 0 = "Export" ∧
      ukSvgInterLabel 0 = "export" ∧
      2 ≤ interWeight flow ∧
      (∀ flow2 : ℚ, |flow| ≤ |flow2| → interWeight flow ≤ interWeight flow2) ∧
      interColor (-250) = "#ef4444" ∧ interLabel (-250) = "Export" ∧
      ukSvgInterStrokeWidth = 3 := by
  intro flow
  refine ⟨?_, ?_, by decide, by decide, by decide, le_max_left _ _, ?_,
    by decide, by decide, rfl⟩
  · intro hneg
    have hb : interIsImport flow = false := by
      simp only [interIsImport, decide_eq_false_iff_not, not_lt]
      exact hneg.le
    refine ⟨?_, hb, ?_⟩
    · unfold interColor
      rw [if_neg (not_lt.mpr hneg.le), if_pos hneg]
    · simp [interLabel, hb]
  · intro hpos
    have hb : interIsImport flow = true := by
      simp only [interIsImport, decide_eq_true_eq]
      exact hpos
    refine ⟨?_, hb, ?_⟩
    · unfold interColor
      rw [if_pos hpos]
    · simp [interLabel, hb]
  · intro flow2 hle
    unfold interWeight
    exact max_le_max le_rfl ((div_le_div_iff_of_pos_right (by norm_num)).mpr hle)

/-- C6 witness: the classification theorem applied at flow = −250 MW. -/
theorem c6_flow_classification_and_width_witness :
    (-250:ℚ) < 0 ∧ interColor (-250) = "#ef4444" ∧
      interLabel (-250) = "Export" :=
  ⟨by norm_num, ((c6_flow_classification_and_width (-250)).1 (by norm_num)).1,
    ((c6_flow_classification_and_width (-250)).1 (by norm_num)).2.2⟩

/-- C7 counterexample: for a generator with zero capacity and output
50 MW, the displayed capacity factor is 5000 % — a defined value, but not
the 0 % (or em-dash) sentinel the claim promises for zero capacity. -/
theorem c7_zero_capacity_display_not_sentinel :
    capacityFactorPct 50 0 = 5000 ∧ capacityFactorPct 50 0 ≠ 0 := by
  constructor <;> norm_num [capacityFactorPct, jsFalsyOr]

/-- C7 amended: the capacity-factor display never divides by zero — a zero
capacity is replaced by the guard divisor 1, so the result equals
`output × 100` % there (which is the 0 % sentinel exactly when the output is
0), the value is non-negative whenever output and capacity are non-negative,
and the part_003 panel computes the same value on in-contract inputs. -/
theorem c7_capacity_factor_guarded :
    ∀ output capacity : ℚ,
      (0 ≤ output → 0 ≤ capacity → 0 ≤ capacityFactorPct output capacity) ∧
      capacityFactorPct output 0 = output * 100 ∧
      capacityFactorPct 0 capacity = 0 ∧
      gsmCapacityFactorPct (some output) (some capacity) =
        capacityFactorPct output capacity := by
  intro output capacity
  refine ⟨?_, ?_, ?_, ?_⟩
  · intro hout hcap
    unfold capacityFactorPct jsFalsyOr
    have hpos : 0 < (if capacity = 0 then 1 else capacity) := by
      split
      · norm_num
      · exact lt_of_le_of_ne hcap (Ne.symm (by assumption))
    exact mul_nonneg (div_nonneg hout hpos.le) (by norm_num)
  · simp [capacityFactorPct, jsFalsyOr]
  · simp [capacityFactorPct, zero_div]
  · unfold gsmCapacityFactorPct capacityFactorPct jsNumOr jsFalsyOr
    by_cases h : output = 0 <;> simp [h]

/-- C7 witness: the guard theorem applied at output 600 MW, capacity
800 MW. -/
theorem c7_capacity_factor_guarded_witness :
    (0:ℚ) ≤ 600 ∧ (0:ℚ) ≤ 800 ∧ 0 ≤ capacityFactorPct 600 800 :=
  ⟨by norm_num, by norm_num,
    (c7_capacity_factor_guarded 600 800).1 (by norm_num) (by norm_num)⟩

/-- C8 counterexample: with 51 valid generators in the layer's collection,
the `UKMapSVG` marker loop receives only the first 50 — the collection is
truncated before rendering and the 51st entity produces no marker. -/
theorem c8_fifty_first_generator_omitted :
    (ukSvgVisibleGenerators (List.replicate 51 placedGenerator)).length = 50 ∧
    (List.replicate 51 placedGenerator).length = 51 ∧
    ukSvgVisibleGenerators (List.replicate 51 placedGenerator) ≠
      List.replicate 51 placedGenerator := by
  refine ⟨?_, by simp, ?_⟩
  · simp [ukSvgVisibleGenerators]
  · intro hEq
    have hlen := congrArg List.length hEq
    simp [ukSvgVisibleGenerators] at hlen

/-- C8 amended: generator collections are truncated to the first 50
(`UKMapSVG`), 100 (`GridSimulator`) and 200 (`GridSimulatorMap`) entities
before rendering; a collection within the cap passes through whole, and the
grid-node (and other) layers are not truncated. -/
theorem c8_layer_truncation_bounds :
    ∀ (gens : List Generator) (nodes : List GridNode),
      (gens.length ≤ 50 → ukSvgVisibleGenerators gens = gens) ∧
      (ukSvgVisibleGenerators gens).length = min 50 gens.length ∧
      (simVisibleGenerators gens).length = min 100 gens.length ∧
      (gsmVisibleGenerators gens).length = min 200 gens.length ∧
      ukSvgVisibleGridNodes nodes = nodes := by
  intro gens nodes
  exact ⟨fun h => List.take_of_length_le h, List.length_take _ _,
    List.length_take _ _, List.length_take _ _, rfl⟩

/-- C8 witness: the truncation theorem applied to a 3-element collection,
which passes through `UKMapSVG` whole. -/
theorem c8_layer_truncation_bounds_witness :
    (List.replicate 3 placedGenerator).length ≤ 50 ∧
    ukSvgVisibleGenerators (List.replicate 3 placedGenerator) =
      List.replicate 3 placedGenerator :=
  ⟨by simp, (c8_layer_truncation_bounds (List.replicate 3 placedGenerator)
    []).1 (by simp)⟩

/-- C9 counterexample: `UKMapSVG` sizes generator markers by *output*, not
capacity — a 400 MW generator at full output gets size 4 while an idle
5000 MW generator gets size 3, so capacity-monotonicity fails. -/
theorem c9_size_not_monotone_in_capacity :
    smallBusyGen.capacity_mw ≤ bigIdleGen.capacity_mw ∧
    ukSvgSizeOf smallBusyGen = 4 ∧ ukSvgSizeOf bigIdleGen = 3 ∧
    ¬ ukSvgSizeOf smallBusyGen ≤ ukSvgSizeOf bigIdleGen := by
  have h1 : ukSvgSizeOf smallBusyGen = 4 := by
    show min (max ((400:ℚ) / 100) 3) 12 = 4
    rw [show (400:ℚ) / 100 = 4 by norm_num,
      max_eq_left (by norm_num : (3:ℚ) ≤ 4),
      min_eq_left (by norm_num : (4:ℚ) ≤ 12)]
  have h2 : ukSvgSizeOf bigIdleGen = 3 := by
    show min (max ((0:ℚ) / 100) 3) 12 = 3
    rw [zero_div, max_eq_right (by norm_num : (0:ℚ) ≤ 3),
      min_eq_left (by norm_num : (3:ℚ) ≤ 12)]
  refine ⟨by norm_num [smallBusyGen, bigIdleGen], h1, h2, ?_⟩
  rw [h1, h2]
  norm_num

/-- C9 amended: the `UKMapSVG` generator size is monotone in *output* and
clamped to [3, 12]; the `GeneratorMarker` radius clamp keeps every radius in
[5, 20] and is monotone in its square-root argument (hence in capacity);
the part_002 radius is monotone with a lower clip of 6 but no upper clip —
it exceeds any given bound for a large enough square-root term. -/
theorem c9_size_monotonicity_and_clips :
    (∀ a b : GenVitals, a.output_mw ≤ b.output_mw →
      ukSvgSizeOf a ≤ ukSvgSizeOf b) ∧
    (∀ a : GenVitals, 3 ≤ ukSvgSizeOf a ∧ ukSvgSizeOf a ≤ 12) ∧
    (∀ s t : ℚ, s ≤ t → gsmRadiusClamp s ≤ gsmRadiusClamp t) ∧
    (∀ s : ℚ, 5 ≤ gsmRadiusClamp s ∧ gsmRadiusClamp s ≤ 20) ∧
    (∀ s t : ℚ, s ≤ t → part002Radius s ≤ part002Radius t) ∧
    (∀ M : ℚ, M < part002Radius (5 * (M + 6))) := by
  refine ⟨?_, ?_, ?_, ?_, ?_, ?_⟩
  · intro a b hab
    unfold ukSvgSizeOf
    exact min_le_min
      (max_le_max ((div_le_div_iff_of_pos_right (by norm_num)).mpr hab) le_rfl) le_rfl
  · intro a
    unfold ukSvgSizeOf
    exact ⟨le_min (le_max_right _ _) (by norm_num), min_le_right _ _⟩
  · intro s t hst
    unfold gsmRadiusClamp
    exact max_le_max le_rfl (min_le_min le_rfl hst)
  · intro s
    unfold gsmRadiusClamp
    exact ⟨le_max_left _ _, max_le (by norm_num) (min_le_left _ _)⟩
  · intro s t hst
    unfold part002Radius
    exact max_le_max le_rfl ((div_le_div_iff_of_pos_right (by norm_num)).mpr hst)
  · intro M
    unfold part002Radius
    have h5 : (5:ℚ) * (M + 6) / 5 = M + 6 := by ring
    calc M < M + 6 := by linarith
    _ ≤ max 6 (5 * (M + 6) / 5) := by rw [h5]; exact le_max_right _ _

/-- C9 witness: output-monotonicity applied to the idle and busy concrete
generators (outputs 0 ≤ 400). -/
theorem c9_size_monotonicity_and_clips_witness :
    bigIdleGen.output_mw ≤ smallBusyGen.output_mw ∧
    ukSvgSizeOf bigIdleGen ≤ ukSvgSizeOf smallBusyGen :=
  ⟨by norm_num [bigIdleGen, smallBusyGen],
    c9_size_monotonicity_and_clips.1 bigIdleGen smallBusyGen
      (by norm_num [bigIdleGen, smallBusyGen])⟩

/-- C10: every rendered generator marker's opacity is floored at 0.3 — both
the `AnimatedGeneratorIcon` opacity and the `GeneratorMarker` fill opacity
are at least 3/10 for every input, and equal exactly 3/10 when the output is
absent or zero, so idle generators stay visible. -/
theorem c10_opacity_floor :
    ∀ output capacity : Option ℚ,
      (3:ℚ)/10 ≤ animatedIconCapFactor output capacity ∧
      (3:ℚ)/10 ≤ gsmFillOpacity output capacity ∧
      animatedIconCapFactor none capacity = 3/10 ∧
      animatedIconCapFactor (some 0) capacity = 3/10 ∧
      gsmFillOpacity none capacity = 3/10 ∧
      gsmFillOpacity (some 0) capacity = 3/10 := by
  intro output capacity
  have h0 : jsNumOr (some (0:ℚ)) 0 = 0 := by simp [jsNumOr]
  have hn : jsNumOr (none : Option ℚ) 0 = 0 := rfl
  refine ⟨le_max_left _ _, le_max_left _ _, ?_, ?_, ?_, ?_⟩ <;>
    simp only [animatedIconCapFactor, gsmFillOpacity, h0, hn, zero_div] <;>
    exact max_eq_left (by norm_num)

end GridBridge
